import Mathlib

/-!
# Verification of the cipher incremental-analysis tools

Shallow embedding of the incremental-analysis tool handlers
(envelope/snapshot/delta/graph/relocation/branch tools) and proofs about
the behaviour of the embedded code.

Numeric JS values are modelled as rationals; `Math.round` is modelled as
`jsRound` (round half toward positive infinity).  Time- and random-based
generated values (ISO date strings, numeric vector ids, random id
suffixes) are passed in as explicit parameters, since the source derives
them from `Date.now()` / `Math.random()`.
-/

namespace Cipher

-- ===========================================================================
-- Data model (from types.ts)
-- ===========================================================================

inductive WorkflowGoal
  | AUDIT | DOCUMENT | BUILD_FRONTEND
deriving DecidableEq, Repr

inductive AnalysisMode
  | FULL | INCREMENTAL | REBASE
deriving DecidableEq, Repr

inductive TrustLevel
  | HIGH | MEDIUM | LOW
deriving DecidableEq, Repr

structure TrustComponents where
  coverage : ℚ
  freshness : ℚ
  confidence : ℚ
deriving DecidableEq, Repr

structure TrustScore where
  overall : ℚ
  level : TrustLevel
  components : TrustComponents
deriving DecidableEq, Repr

inductive RelocationStatus
  | PRESERVED | RELOCATED | STALE | ORPHANED
deriving DecidableEq, Repr

inductive RelocationMethod
  | EXACT_MATCH | LINE_DRIFT | SEMANTIC_SAME_FILE | SEMANTIC_OTHER_FILE
  | HASH_GLOBAL_SEARCH | FUZZY_CONTEXT | FILE_DELETED | CONTENT_CHANGED
deriving DecidableEq, Repr

inductive RelocationStrategy
  | EXACT | DRIFT | SEMANTIC | HASH_GLOBAL | FUZZY
deriving DecidableEq, Repr

structure FindingLocation where
  file_path : String
  line_start : ℕ
  line_end : ℕ
deriving DecidableEq, Repr

/-- One entry of `strategies_tried` (`{ strategy, result, confidence }`). -/
structure StrategyAttempt where
  strategy : RelocationStrategy
  result : String
  confidence : ℚ
deriving DecidableEq, Repr

structure RelocationResult where
  status : RelocationStatus
  new_location : Option FindingLocation
  method : RelocationMethod
  confidence : ℚ
  drift : Option ℤ
  strategies_tried : List StrategyAttempt
deriving DecidableEq, Repr

inductive ChunkStatus
  | ANALYZED | SKIPPED | PENDING
deriving DecidableEq, Repr

structure ChunkManifestEntry where
  files : List String
  status : ChunkStatus
  fingerprint : String
deriving DecidableEq, Repr

/-- Chunk manifest: map from chunk id to its manifest entry. -/
def ChunkManifest := List (String × ChunkManifestEntry)
deriving DecidableEq, Repr

structure Snapshot where
  snapshot_id : String
  project_path : String
  git_commit : String
  git_branch : String
  workflow_id : String
  workflow_goal : WorkflowGoal
  analysis_mode : AnalysisMode
  baseline_snapshot_id : Option String
  chunk_manifest : ChunkManifest
  findings : List String
  trust_score : TrustScore
  duration_seconds : ℚ
  created_at : String
  provenance_chain : List String
deriving DecidableEq, Repr

inductive ConflictStrategy
  | PREFER_NEW | PREFER_BASELINE | KEEP_BOTH
deriving DecidableEq, Repr

structure MergeResult where
  snapshot_id : String
  findings_preserved : ℕ
  findings_relocated : ℕ
  findings_new : ℕ
  findings_stale : ℕ
  findings_orphaned : ℕ
  conflicts_resolved : ℕ
  trust_score : TrustScore
deriving DecidableEq, Repr

structure AnalysisBranch where
  branch_id : String
  git_branch : String
  base_git_branch : String
  fork_point_commit : String
  snapshots : List String
  created_at : String
  updated_at : String
deriving DecidableEq, Repr

-- ===========================================================================
-- JS arithmetic helpers
-- ===========================================================================

/-- JavaScript `Math.round`: round half toward positive infinity. -/
def jsRound (x : ℚ) : ℤ := ⌊x + 1/2⌋

/-- Rounding to one decimal place, as the spec's
`round(v, 1 decimal)` (used to compare against the source's
`Math.round(v * 10) / 10` pattern). -/
def roundTo1 (x : ℚ) : ℚ := (jsRound (x * 10) : ℚ) / 10

-- ===========================================================================
-- Trust score (snapshot-tools.ts, computeMixedTrustScore)
-- ===========================================================================

/-- Embedding of `computeMixedTrustScore` from snapshot-tools.ts. -/
def computeMixedTrustScore (preserved relocated stale orphaned newFindings : ℕ) :
    TrustScore :=
  let total : ℕ := preserved + relocated + stale + orphaned + newFindings
  if total = 0 then
    { overall := 10, level := .HIGH,
      components := { coverage := 1, freshness := 1, confidence := 1 } }
  else
    let coverage : ℚ := ((preserved + relocated + newFindings : ℕ) : ℚ) / (total : ℚ)
    let freshness : ℚ := if newFindings > 0 then 0.9 else 0.7
    let confidence : ℚ := 1 - ((stale + orphaned : ℕ) : ℚ) / (total : ℚ)
    let overall : ℚ :=
      (jsRound ((coverage * 0.4 + freshness * 0.3 + confidence * 0.3) * 10 * 10) : ℚ) / 10
    { overall := overall,
      level := if overall ≥ 8 then .HIGH else if overall ≥ 5 then .MEDIUM else .LOW,
      components := { coverage := coverage, freshness := freshness, confidence := confidence } }

-- ===========================================================================
-- Snapshot create / merge (snapshot-tools.ts)
-- ===========================================================================

/-- Embedding of `generateSnapshotId`: `snap-<dateStr>-<commit.slice(0,7)>`.  The date
string comes from the wall clock, so it is a parameter here. -/
def generateSnapshotId (dateStr : String) (commit : String) : String :=
  "snap-" ++ dateStr ++ "-" ++ (commit.take 7)

structure SnapshotCreateParams where
  project_path : String
  git_commit : String
  git_branch : String
  workflow_id : String
  workflow_goal : WorkflowGoal
  analysis_mode : AnalysisMode
  baseline_snapshot_id : Option String
  chunk_manifest : ChunkManifest
  findings : List String
  trust_score : TrustScore
  duration_seconds : Option ℚ
deriving DecidableEq, Repr

/-- Embedding of the `snapshotCreateTool` handler's snapshot construction
(the part before vector-store persistence; `timestamp` is the ISO
timestamp the handler takes from the clock). -/
def snapshotCreate (args : SnapshotCreateParams) (dateStr timestamp : String) : Snapshot :=
  let snapshotId := generateSnapshotId dateStr args.git_commit
  -- Build provenance chain: the handler pushes only the baseline id
  -- ("In a full implementation, we'd fetch the baseline's provenance
  -- chain"), then its own id.
  let provenanceChain : List String :=
    (match args.baseline_snapshot_id with
     | some b => [b]
     | none => []) ++ [snapshotId]
  { snapshot_id := snapshotId
    project_path := args.project_path
    git_commit := args.git_commit
    git_branch := args.git_branch
    workflow_id := args.workflow_id
    workflow_goal := args.workflow_goal
    analysis_mode := args.analysis_mode
    baseline_snapshot_id := args.baseline_snapshot_id
    chunk_manifest := args.chunk_manifest
    findings := args.findings
    trust_score := args.trust_score
    duration_seconds := args.duration_seconds.getD 0
    created_at := timestamp
    provenance_chain := provenanceChain }

structure SnapshotMergeArgs where
  baseline_snapshot_id : String
  delta_envelope_ids : List String
  relocation_results : List (String × RelocationResult)
  target_commit : String
  project_path : String
  conflict_strategy : Option ConflictStrategy
  workflow_id : String
  workflow_goal : WorkflowGoal
deriving Repr

/-- One `switch` step of the merge handler's counting loop: the four
counters `(preserved, relocated, stale, orphaned)` incremented according
to the result's status. -/
def countStep (acc : ℕ × ℕ × ℕ × ℕ) (r : RelocationResult) : ℕ × ℕ × ℕ × ℕ :=
  match r.status with
  | .PRESERVED => (acc.1 + 1, acc.2.1, acc.2.2.1, acc.2.2.2)
  | .RELOCATED => (acc.1, acc.2.1 + 1, acc.2.2.1, acc.2.2.2)
  | .STALE => (acc.1, acc.2.1, acc.2.2.1 + 1, acc.2.2.2)
  | .ORPHANED => (acc.1, acc.2.1, acc.2.2.1, acc.2.2.2 + 1)

/-- The merge handler's counting loop over `Object.values(relocationResults)`. -/
def countByStatus (results : List RelocationResult) : ℕ × ℕ × ℕ × ℕ :=
  results.foldl countStep (0, 0, 0, 0)

/-- JS `relocationResults[id]` on the insertion-ordered object, modelled
on the association list. -/
def lookupRelocation (results : List (String × RelocationResult)) (id : String) :
    Option RelocationResult :=
  (results.find? (fun kv => kv.1 == id)).map Prod.snd

/-- Embedding of the `snapshotMergeTool` handler (assuming the vector
store and embedder are available, since otherwise it returns an error
before doing any work).  Returns the merged snapshot and the
`MergeResult`. -/
def snapshotMerge (args : SnapshotMergeArgs) (dateStr timestamp : String) :
    Snapshot × MergeResult :=
  let counts := countByStatus (args.relocation_results.map Prod.snd)
  let preserved := counts.1
  let relocated := counts.2.1
  let stale := counts.2.2.1
  let orphaned := counts.2.2.2
  let newFindings := args.delta_envelope_ids.length
  let trustScore := computeMixedTrustScore preserved relocated stale orphaned newFindings
  -- Combine all finding envelope IDs
  let allFindings : List String :=
    ((args.relocation_results.map Prod.fst).filter (fun id =>
      match lookupRelocation args.relocation_results id with
      | some r => r.status == .PRESERVED || r.status == .RELOCATED
      | none => false)) ++ args.delta_envelope_ids
  let snapshotId := generateSnapshotId dateStr args.target_commit
  let snapshot : Snapshot :=
    { snapshot_id := snapshotId
      project_path := args.project_path
      git_commit := args.target_commit
      git_branch := ""
      workflow_id := args.workflow_id
      workflow_goal := args.workflow_goal
      analysis_mode := .INCREMENTAL
      baseline_snapshot_id := some args.baseline_snapshot_id
      chunk_manifest := []
      findings := allFindings
      trust_score := trustScore
      duration_seconds := 0
      created_at := timestamp
      provenance_chain := [args.baseline_snapshot_id, snapshotId] }
  let mergeResult : MergeResult :=
    { snapshot_id := snapshotId
      findings_preserved := preserved
      findings_relocated := relocated
      findings_new := newFindings
      findings_stale := stale
      findings_orphaned := orphaned
      conflicts_resolved := 0
      trust_score := trustScore }
  (snapshot, mergeResult)

-- ===========================================================================
-- Finding relocation pipeline (relocation-branch-tools.ts)
-- ===========================================================================

/-- One raw record returned by the similarity index for the SEMANTIC
strategy's `store.search`.  The handler reads the similarity `score` and
filters on the payload fields `memoryType` and `project_path` (the
latter is absent on envelope payloads, which carry `project` instead,
hence an `Option`). -/
structure SearchRecord where
  score : ℚ
  memoryType : String
  project_path : Option String
deriving DecidableEq, Repr

/-- Environment of one `findingRelocateTool` call: whether a
`delta_manifest` was passed, and the similarity index reachable through
the vector store + embedder (`none` when either service is
unavailable; `some f` maps a query to the raw ranked search results). -/
structure RelocateEnv where
  hasDeltaManifest : Bool
  semanticSearch : Option (List SearchRecord)
  project_path : String
  finding_id : String

/-- One iteration of the strategy loop: returns the iteration-local
`(confidence, status, method)` (initialised to `(0, ORPHANED,
CONTENT_CHANGED)`) and the entries pushed onto `strategiesTried`. -/
def stepStrategy (env : RelocateEnv) (minConfidence : ℚ) :
    RelocationStrategy → ℚ × RelocationStatus × RelocationMethod × List StrategyAttempt
  | .EXACT =>
      -- Would check if code at original location matches
      -- (simulated: not found at exact location)
      (0, .ORPHANED, .CONTENT_CHANGED, [⟨.EXACT, "NO_MATCH", 0⟩])
  | .DRIFT =>
      -- Would calculate line drift from delta manifest
      if env.hasDeltaManifest then
        (0.95, .RELOCATED, .LINE_DRIFT, [⟨.DRIFT, "MATCH", 0.95⟩])
      else
        (0, .ORPHANED, .CONTENT_CHANGED, [⟨.DRIFT, "NO_DELTA_MANIFEST", 0⟩])
  | .SEMANTIC =>
      -- Would search by semantic anchor using vector similarity;
      -- skipped entirely (nothing recorded) when store or embedder is missing
      match env.semanticSearch with
      | none => (0, .ORPHANED, .CONTENT_CHANGED, [])
      | some rawResults =>
          let results := rawResults.filter (fun r =>
            r.memoryType == "envelope" && r.project_path == some env.project_path)
          match results with
          | r :: _ =>
              if r.score > minConfidence then
                (r.score, .RELOCATED, .SEMANTIC_SAME_FILE, [⟨.SEMANTIC, "MATCH", r.score⟩])
              else
                (0, .ORPHANED, .CONTENT_CHANGED, [⟨.SEMANTIC, "LOW_CONFIDENCE", r.score⟩])
          | [] => (0, .ORPHANED, .CONTENT_CHANGED, [⟨.SEMANTIC, "LOW_CONFIDENCE", 0⟩])
  | .HASH_GLOBAL =>
      -- Would search for snippet hash globally
      (0, .ORPHANED, .CONTENT_CHANGED, [⟨.HASH_GLOBAL, "NO_MATCH", 0⟩])
  | .FUZZY =>
      -- Would do fuzzy context matching
      (0, .ORPHANED, .CONTENT_CHANGED, [⟨.FUZZY, "NO_MATCH", 0⟩])

/-- The strategy loop: stop at the first strategy whose confidence
reaches `minConfidence`; otherwise fall through to
`STALE`/`CONTENT_CHANGED`. -/
def relocateLoop (env : RelocateEnv) (minConfidence : ℚ) :
    List RelocationStrategy → List StrategyAttempt → RelocationResult
  | [], tried =>
      { status := .STALE, new_location := none, method := .CONTENT_CHANGED,
        confidence := 0, drift := none, strategies_tried := tried }
  | s :: rest, tried =>
      let step := stepStrategy env minConfidence s
      let confidence := step.1
      let status := step.2.1
      let method := step.2.2.1
      let tried' := tried ++ step.2.2.2
      if confidence ≥ minConfidence then
        { status := status, new_location := none, method := method,
          confidence := confidence, drift := none, strategies_tried := tried' }
      else
        relocateLoop env minConfidence rest tried'

/-- Embedding of the `findingRelocateTool` handler.  `strategies` and
`min_confidence` are the optional request parameters with their source
defaults. -/
def findingRelocate (env : RelocateEnv) (strategies : Option (List RelocationStrategy))
    (min_confidence : Option ℚ) : RelocationResult :=
  let strats := strategies.getD [.EXACT, .DRIFT, .SEMANTIC, .HASH_GLOBAL, .FUZZY]
  let minConfidence := min_confidence.getD 0.7
  relocateLoop env minConfidence strats []

-- ===========================================================================
-- Vector store model (Milvus via `store.insert([emb],[vectorId],[payload])`)
-- ===========================================================================

/-- The backing store keyed by numeric vector id: inserting under an id
stores the payload under that id (last write wins per id). -/
def vsInsert {α : Type} (store : List (ℕ × α)) (id : ℕ) (payload : α) :
    List (ℕ × α) :=
  if store.any (fun r => r.1 == id) then
    store.map (fun r => if r.1 == id then (id, payload) else r)
  else
    store ++ [(id, payload)]

-- ===========================================================================
-- Graph update (delta-graph-tools.ts, graphUpdateTool)
-- ===========================================================================

structure GraphEdge where
  source : String
  target : String
  edge_type : String
  weight : Option ℚ
  symbols : Option (List String)
  confidence : Option ℚ
  primary : Option Bool
deriving DecidableEq, Repr

/-- The payload written by `add_edge`: the spread edge plus the derived
`edge_id`, scope fields and record tags. -/
structure EdgePayload where
  edge : GraphEdge
  edge_id : String
  project_path : String
  commit : String
  recordType : String
  memoryType : String
deriving DecidableEq, Repr

/-- The `add_edge` branch of the `graphUpdateTool` handler (store and
embedder available).  `vectorId` is the fresh time/random numeric id
produced by `generateNumericVectorId()` for this call. -/
def graphAddEdge (store : List (ℕ × EdgePayload)) (project_path commit : String)
    (edge : GraphEdge) (vectorId : ℕ) : List (ℕ × EdgePayload) :=
  let edgeId := "edge-" ++ edge.source ++ "-" ++ edge.target ++ "-" ++ edge.edge_type
  vsInsert store vectorId
    { edge := edge, edge_id := edgeId, project_path := project_path,
      commit := commit, recordType := "edge", memoryType := "graph" }

/-- Observable state: how many records the store holds for the edge
identity tuple `(source, target, edge_type)`. -/
def countEdgeRecords (store : List (ℕ × EdgePayload)) (source target edge_type : String) : ℕ :=
  (store.filter (fun r =>
    r.2.edge.source == source && r.2.edge.target == target &&
      r.2.edge.edge_type == edge_type)).length

-- ===========================================================================
-- Graph propagate (delta-graph-tools.ts, graphPropagateTool)
-- ===========================================================================

/-- A raw record returned by `store.search` for a dirty-chunk query,
with the payload fields the propagation handler reads. -/
structure GraphSearchRecord where
  memoryType : String
  recordType : String
  project_path : String
  source : String
  target : String
  edge_type : String
  weight : Option ℚ
  confidence : Option ℚ
deriving DecidableEq, Repr

structure CascadeChain where
  source_chunk : String
  affected_chunk : String
  path : List String
  edge_types : List String
  depth : ℕ
deriving DecidableEq, Repr

structure GraphPropagateArgs where
  project_path : String
  dirty_chunks : List String
  max_depth : Option ℕ
  edge_types : Option (List String)
  min_edge_weight : Option ℚ
  enable_semantic_ripple : Option Bool
  similarity_threshold : Option ℚ
deriving Repr

structure PropagateState where
  cascadeAffected : List String
  visited : List String
  cascadeChains : List CascadeChain
  nodesVisited : ℕ
  edgesTraversed : ℕ
deriving Repr

structure PropagateResult where
  cascade_affected : List String
  semantic_affected : List String
  all_affected : List String
  cascade_chains : List CascadeChain
  nodes_visited : ℕ
  edges_traversed : ℕ
  max_depth_reached : ℕ
deriving Repr

/-- Inner loop body of the propagation handler: one filtered search
result processed against the current state, for dirty chunk `chunkId`. -/
def processEdgeResult (chunkId : String) (st : PropagateState)
    (edge : GraphSearchRecord) : PropagateState :=
  if edge.source == chunkId || edge.target == chunkId then
    let affectedChunk := if edge.source == chunkId then edge.target else edge.source
    let st' :=
      if st.visited.contains affectedChunk then st
      else
        { st with
          cascadeAffected := st.cascadeAffected ++ [affectedChunk]
          visited := st.visited ++ [affectedChunk]
          cascadeChains := st.cascadeChains ++
            [{ source_chunk := chunkId, affected_chunk := affectedChunk,
               path := [chunkId, affectedChunk], edge_types := [edge.edge_type],
               depth := 1 }]
          edgesTraversed := st.edgesTraversed + 1 }
    { st' with nodesVisited := st'.nodesVisited + 1 }
  else st

/-- Embedding of the `graphPropagateTool` handler.  `searchFn` models the
vector store + embedder: `none` when the services are unavailable,
otherwise the store's raw response to each dirty chunk's query. -/
def graphPropagate (searchFn : Option (String → List GraphSearchRecord))
    (args : GraphPropagateArgs) : PropagateResult :=
  let maxDepth := args.max_depth.getD 3
  let edgeTypes := args.edge_types.getD ["IMPORTS", "CALLS", "EXTENDS", "IMPLEMENTS"]
  let minEdgeWeight := args.min_edge_weight.getD 2
  let enableSemanticRipple := args.enable_semantic_ripple.getD true
  let similarityThreshold := args.similarity_threshold.getD 0.8
  -- (the defaults above are computed by the handler but none of
  -- maxDepth, edgeTypes, minEdgeWeight, enableSemanticRipple or
  -- similarityThreshold is consulted by the loop below, which expands
  -- exactly one hop from the dirty chunks)
  let semanticAffected : List String := []
  let initial : PropagateState :=
    { cascadeAffected := [], visited := args.dirty_chunks, cascadeChains := [],
      nodesVisited := 0, edgesTraversed := 0 }
  let finalState : PropagateState :=
    match searchFn with
    | none => initial
    | some search =>
        args.dirty_chunks.foldl
          (fun st chunkId =>
            let results := (search chunkId).filter (fun r =>
              r.memoryType == "graph" && r.recordType == "edge" &&
                r.project_path == args.project_path)
            results.foldl (processEdgeResult chunkId) st)
          initial
  { cascade_affected := finalState.cascadeAffected
    semantic_affected := semanticAffected
    all_affected := args.dirty_chunks ++ finalState.cascadeAffected ++ semanticAffected
    cascade_chains := finalState.cascadeChains
    nodes_visited := finalState.nodesVisited
    edges_traversed := finalState.edgesTraversed
    max_depth_reached := 0 }

-- ===========================================================================
-- Branch management (relocation-branch-tools.ts, branchManageTool)
-- ===========================================================================

/-- Embedding of `generateBranchId`: sanitise the git branch name
(non-alphanumeric/dash characters become dashes, then lowercased) and
append a random suffix (a parameter here). -/
def generateBranchId (gitBranch : String) (suffix : String) : String :=
  let sanitized := String.mk
    ((gitBranch.data.map (fun c => if c.isAlphanum || c == '-' then c else '-')).map
      Char.toLower)
  "ab-" ++ sanitized ++ "-" ++ suffix

/-- A branch record as persisted: the spread branch plus the project scope. -/
structure BranchRecord where
  branch : AnalysisBranch
  project_path : String
deriving DecidableEq, Repr

inductive BranchCreateOutcome
  | ok (branch : AnalysisBranch)
  | err (msg : String)
deriving DecidableEq, Repr

/-- The `create` branch of the `branchManageTool` handler (store and
embedder available).  `suffix` is the random id suffix, `vectorId` the
fresh numeric vector id, `timestamp` the ISO clock value. -/
def branchCreate (store : List (ℕ × BranchRecord)) (project_path : String)
    (git_branch : Option String) (base_git_branch : Option String)
    (suffix : String) (vectorId : ℕ) (timestamp : String) :
    BranchCreateOutcome × List (ℕ × BranchRecord) :=
  let baseGitBranch := base_git_branch.getD "main"
  match git_branch with
  | none => (.err "git_branch required for create operation", store)
  | some gb =>
      let branch : AnalysisBranch :=
        { branch_id := generateBranchId gb suffix
          git_branch := gb
          base_git_branch := baseGitBranch
          fork_point_commit := ""
          snapshots := []
          created_at := timestamp
          updated_at := timestamp }
      let store' := vsInsert store vectorId { branch := branch, project_path := project_path }
      (.ok branch, store')

-- ===========================================================================
-- Lemmas
-- ===========================================================================

/-- Unfolding of `computeMixedTrustScore` in the non-empty case. -/
theorem computeMixedTrustScore_pos (p r s o n : ℕ) (h : p + r + s + o + n ≠ 0) :
    computeMixedTrustScore p r s o n =
      (let total : ℕ := p + r + s + o + n
       let coverage : ℚ := ((p + r + n : ℕ) : ℚ) / (total : ℚ)
       let freshness : ℚ := if n > 0 then 0.9 else 0.7
       let confidence : ℚ := 1 - ((s + o : ℕ) : ℚ) / (total : ℚ)
       let overall : ℚ :=
         (jsRound ((coverage * 0.4 + freshness * 0.3 + confidence * 0.3) * 10 * 10) : ℚ) / 10
       { overall := overall,
         level := if overall ≥ 8 then .HIGH else if overall ≥ 5 then .MEDIUM else .LOW,
         components :=
           { coverage := coverage, freshness := freshness, confidence := confidence } }) := by
  simp only [computeMixedTrustScore, if_neg h]

/-- The rounded weighted score lands in `[0, 10]` whenever the weighted
score is in `[0, 1]`. -/
theorem jsRound_overall_bounds (v : ℚ) (h0 : 0 ≤ v) (h1 : v ≤ 1) :
    0 ≤ ((jsRound (v * 10 * 10) : ℤ) : ℚ) / 10
      ∧ ((jsRound (v * 10 * 10) : ℤ) : ℚ) / 10 ≤ 10 := by
  have hfl0 : (0 : ℤ) ≤ jsRound (v * 10 * 10) := by
    simp only [jsRound]
    exact Int.le_floor.mpr (by push_cast; linarith)
  have hfl1 : jsRound (v * 10 * 10) < 101 := by
    simp only [jsRound]
    exact Int.floor_lt.mpr (by push_cast; linarith)
  constructor
  · apply div_nonneg _ (by norm_num)
    exact_mod_cast hfl0
  · rw [div_le_iff₀ (by norm_num : (0 : ℚ) < 10)]
    have h2 : jsRound (v * 10 * 10) ≤ 100 := by omega
    calc ((jsRound (v * 10 * 10) : ℤ) : ℚ) ≤ ((100 : ℤ) : ℚ) := by exact_mod_cast h2
      _ = 10 * 10 := by norm_num

-- ===========================================================================
-- C1 — trust score formula, bounds and empty-merge convention
-- ===========================================================================

/-- C1: the trust score computed by snapshot merge satisfies the spec's
formulas (`coverage`, `freshness`, `confidence`, rounded `overall`,
thresholded `level`), its `overall` always lies in `[0, 10]`, and an
empty merge (`total = 0`, i.e. all five counts zero) yields a perfect
score `10` with level `HIGH`. -/
theorem trust_score_formula_and_bounds (p r s o n : ℕ)
    (h : p + r + s + o + n ≠ 0) :
    (computeMixedTrustScore p r s o n).components.coverage
        = ((p + r + n : ℕ) : ℚ) / ((p + r + s + o + n : ℕ) : ℚ)
    ∧ (computeMixedTrustScore p r s o n).components.freshness
        = (if 0 < n then (0.9 : ℚ) else (0.7 : ℚ))
    ∧ (computeMixedTrustScore p r s o n).components.confidence
        = 1 - ((s + o : ℕ) : ℚ) / ((p + r + s + o + n : ℕ) : ℚ)
    ∧ (computeMixedTrustScore p r s o n).overall
        = roundTo1 ((0.4 * (computeMixedTrustScore p r s o n).components.coverage
            + 0.3 * (computeMixedTrustScore p r s o n).components.freshness
            + 0.3 * (computeMixedTrustScore p r s o n).components.confidence) * 10)
    ∧ (computeMixedTrustScore p r s o n).level
        = (if 8 ≤ (computeMixedTrustScore p r s o n).overall then TrustLevel.HIGH
           else if 5 ≤ (computeMixedTrustScore p r s o n).overall then TrustLevel.MEDIUM
           else TrustLevel.LOW)
    ∧ (0 ≤ (computeMixedTrustScore p r s o n).overall
        ∧ (computeMixedTrustScore p r s o n).overall ≤ 10)
    ∧ computeMixedTrustScore 0 0 0 0 0
        = { overall := 10, level := .HIGH, components := ⟨1, 1, 1⟩ } := by
  have htpos : (0 : ℚ) < ((p + r + s + o + n : ℕ) : ℚ) := by
    exact_mod_cast Nat.pos_of_ne_zero h
  rw [computeMixedTrustScore_pos p r s o n h]
  have hcov0 : (0 : ℚ) ≤ ((p + r + n : ℕ) : ℚ) / ((p + r + s + o + n : ℕ) : ℚ) :=
    div_nonneg (Nat.cast_nonneg _) htpos.le
  have hcov1 : ((p + r + n : ℕ) : ℚ) / ((p + r + s + o + n : ℕ) : ℚ) ≤ 1 :=
    (div_le_one htpos).mpr (by exact_mod_cast (by omega : p + r + n ≤ p + r + s + o + n))
  have hso0 : (0 : ℚ) ≤ ((s + o : ℕ) : ℚ) / ((p + r + s + o + n : ℕ) : ℚ) :=
    div_nonneg (Nat.cast_nonneg _) htpos.le
  have hso1 : ((s + o : ℕ) : ℚ) / ((p + r + s + o + n : ℕ) : ℚ) ≤ 1 :=
    (div_le_one htpos).mpr (by exact_mod_cast (by omega : s + o ≤ p + r + s + o + n))
  refine ⟨rfl, rfl, rfl, ?_, rfl, ?_, by decide⟩
  · simp only [roundTo1]
    congr 1
    congr 1
    ring_nf
  · apply jsRound_overall_bounds
    · have hf : (0 : ℚ) ≤ (if n > 0 then (0.9 : ℚ) else 0.7) := by
        split <;> norm_num
      nlinarith
    · have hf : (if n > 0 then (0.9 : ℚ) else 0.7) ≤ (0.9 : ℚ) := by
        split <;> norm_num
      nlinarith

/-- Witness for C1 at concrete counts `(1, 1, 1, 1, 1)`. -/
theorem trust_score_formula_and_bounds_witness :
    (1 + 1 + 1 + 1 + 1 ≠ 0)
    ∧ (0 ≤ (computeMixedTrustScore 1 1 1 1 1).overall
        ∧ (computeMixedTrustScore 1 1 1 1 1).overall ≤ 10) :=
  ⟨by decide, (trust_score_formula_and_bounds 1 1 1 1 1 (by decide)).2.2.2.2.2.1⟩

-- ===========================================================================
-- C2 — merge rule and conservation of finding counts
-- ===========================================================================

/-- The counting loop's output components sum to the accumulator sum plus
the number of results. -/
theorem countStep_foldl_sum (results : List RelocationResult) :
    ∀ acc : ℕ × ℕ × ℕ × ℕ,
      (results.foldl countStep acc).1 + (results.foldl countStep acc).2.1
        + (results.foldl countStep acc).2.2.1 + (results.foldl countStep acc).2.2.2
      = acc.1 + acc.2.1 + acc.2.2.1 + acc.2.2.2 + results.length := by
  induction results with
  | nil => intro acc; simp
  | cons r tl ih =>
      intro acc
      rw [List.foldl_cons, ih]
      rcases acc with ⟨a, b, c, d⟩
      cases hs : r.status <;> simp [countStep, hs] <;> omega

/-- The four status counters sum to the number of relocation results. -/
theorem countByStatus_sum (results : List RelocationResult) :
    (countByStatus results).1 + (countByStatus results).2.1
      + (countByStatus results).2.2.1 + (countByStatus results).2.2.2
      = results.length := by
  simpa using countStep_foldl_sum results (0, 0, 0, 0)

/-- With duplicate-free keys (as in a JS object), filtering the key list
through `relocationResults[id]?.status` equals filtering the entries by
their own status. -/
theorem keys_filter_lookup (rs : List (String × RelocationResult))
    (hnodup : (rs.map Prod.fst).Nodup) :
    (rs.map Prod.fst).filter (fun id =>
        match lookupRelocation rs id with
        | some r => r.status == .PRESERVED || r.status == .RELOCATED
        | none => false)
      = (rs.filter (fun kv =>
          kv.2.status == .PRESERVED || kv.2.status == .RELOCATED)).map Prod.fst := by
  induction rs with
  | nil => rfl
  | cons a tl ih =>
      rw [List.map_cons] at hnodup ⊢
      rcases List.nodup_cons.mp hnodup with ⟨hnotmem, hnd⟩
      have hhead : lookupRelocation (a :: tl) a.1 = some a.2 := by
        simp [lookupRelocation, List.find?_cons_of_pos]
      have htail : ∀ id ∈ tl.map Prod.fst,
          lookupRelocation (a :: tl) id = lookupRelocation tl id := by
        intro id hid
        have hne : ¬(a.1 == id) = true := by
          simp only [beq_iff_eq]
          intro hcontra
          exact hnotmem (hcontra ▸ hid)
        simp [lookupRelocation, List.find?_cons, hne]
      rw [List.filter_cons, List.filter_cons]
      rw [List.filter_congr (fun id hid => by rw [htail id hid])]
      rw [hhead]
      by_cases hkeep : (a.2.status == RelocationStatus.PRESERVED
          || a.2.status == RelocationStatus.RELOCATED) = true
      · simp only [hkeep, if_pos, List.map_cons]
        rw [ih hnd]
      · simp only [hkeep, if_neg, Bool.false_eq_true, not_false_eq_true]
        rw [ih hnd]

/-- C2: when the relocation-result map's keys are exactly the baseline
findings, the merged snapshot's finding list is the PRESERVED/RELOCATED
ids (by id, in order) followed by all delta envelope ids, the four
status counts sum to the number of baseline findings, and
`findings_new` is the number of delta envelope ids. -/
theorem merge_rule_and_conservation (args : SnapshotMergeArgs)
    (dateStr timestamp : String) (baselineFindings : List String)
    (hnodup : (args.relocation_results.map Prod.fst).Nodup)
    (hcover : List.Perm (args.relocation_results.map Prod.fst) baselineFindings) :
    (snapshotMerge args dateStr timestamp).1.findings
        = (args.relocation_results.filter (fun kv =>
            kv.2.status == RelocationStatus.PRESERVED
              || kv.2.status == RelocationStatus.RELOCATED)).map Prod.fst
          ++ args.delta_envelope_ids
    ∧ (snapshotMerge args dateStr timestamp).2.findings_preserved
        + (snapshotMerge args dateStr timestamp).2.findings_relocated
        + (snapshotMerge args dateStr timestamp).2.findings_stale
        + (snapshotMerge args dateStr timestamp).2.findings_orphaned
        = baselineFindings.length
    ∧ (snapshotMerge args dateStr timestamp).2.findings_new
        = args.delta_envelope_ids.length := by
  refine ⟨?_, ?_, rfl⟩
  · show ((args.relocation_results.map Prod.fst).filter _) ++ args.delta_envelope_ids = _
    rw [keys_filter_lookup args.relocation_results hnodup]
  · show (countByStatus (args.relocation_results.map Prod.snd)).1
        + (countByStatus (args.relocation_results.map Prod.snd)).2.1
        + (countByStatus (args.relocation_results.map Prod.snd)).2.2.1
        + (countByStatus (args.relocation_results.map Prod.snd)).2.2.2 = _
    rw [countByStatus_sum, List.length_map, ← hcover.length_eq, List.length_map]

/-- Concrete merge input for the C2 witness: one finding of each status,
one delta envelope, baseline finding list given in a different order. -/
def c2WitnessArgs : SnapshotMergeArgs :=
  { baseline_snapshot_id := "s9"
    delta_envelope_ids := ["e1"]
    relocation_results :=
      [("f1", ⟨.PRESERVED, none, .EXACT_MATCH, 1, none, []⟩),
       ("f2", ⟨.RELOCATED, none, .LINE_DRIFT, 0.95, some 3, []⟩),
       ("f3", ⟨.STALE, none, .CONTENT_CHANGED, 0, none, []⟩),
       ("f4", ⟨.ORPHANED, none, .FILE_DELETED, 0, none, []⟩)]
    target_commit := "commitX"
    project_path := "proj"
    conflict_strategy := some .PREFER_NEW
    workflow_id := "w9"
    workflow_goal := .AUDIT }

/-- Witness for C2 at a concrete merge input. -/
theorem merge_rule_and_conservation_witness :
    ((c2WitnessArgs.relocation_results.map Prod.fst).Nodup
      ∧ List.Perm (c2WitnessArgs.relocation_results.map Prod.fst) ["f2", "f1", "f3", "f4"])
    ∧ ((snapshotMerge c2WitnessArgs "d" "t").1.findings
        = (c2WitnessArgs.relocation_results.filter (fun kv =>
            kv.2.status == RelocationStatus.PRESERVED
              || kv.2.status == RelocationStatus.RELOCATED)).map Prod.fst
          ++ c2WitnessArgs.delta_envelope_ids
      ∧ (snapshotMerge c2WitnessArgs "d" "t").2.findings_preserved
          + (snapshotMerge c2WitnessArgs "d" "t").2.findings_relocated
          + (snapshotMerge c2WitnessArgs "d" "t").2.findings_stale
          + (snapshotMerge c2WitnessArgs "d" "t").2.findings_orphaned
          = (["f2", "f1", "f3", "f4"] : List String).length
      ∧ (snapshotMerge c2WitnessArgs "d" "t").2.findings_new
          = c2WitnessArgs.delta_envelope_ids.length) :=
  ⟨⟨by decide, by decide⟩,
    merge_rule_and_conservation c2WitnessArgs "d" "t" ["f2", "f1", "f3", "f4"]
      (by decide) (by decide)⟩

-- ===========================================================================
-- Relocation pipeline lemmas
-- ===========================================================================

/-- Every strategy step either reports confidence `0`, or produces a
`RELOCATED` candidate via `LINE_DRIFT` or `SEMANTIC_SAME_FILE`. -/
theorem stepStrategy_cases (env : RelocateEnv) (minc : ℚ) (s : RelocationStrategy) :
    (stepStrategy env minc s).1 = 0
    ∨ ((stepStrategy env minc s).2.1 = RelocationStatus.RELOCATED
        ∧ ((stepStrategy env minc s).2.2.1 = RelocationMethod.LINE_DRIFT
            ∨ (stepStrategy env minc s).2.2.1 = RelocationMethod.SEMANTIC_SAME_FILE)) := by
  cases s <;> simp only [stepStrategy] <;> (repeat' split) <;> simp

/-- No strategy step ever produces a `PRESERVED` candidate. -/
theorem stepStrategy_never_preserved (env : RelocateEnv) (minc : ℚ)
    (s : RelocationStrategy) :
    (stepStrategy env minc s).2.1 ≠ RelocationStatus.PRESERVED := by
  cases s <;> simp only [stepStrategy] <;> (repeat' split) <;> simp

/-- With no delta manifest and no vector services, every strategy step
reports confidence `0`. -/
theorem stepStrategy_noServices_conf (env : RelocateEnv)
    (h1 : env.hasDeltaManifest = false) (h2 : env.semanticSearch = none)
    (minc : ℚ) (s : RelocationStrategy) :
    (stepStrategy env minc s).1 = 0 := by
  cases s <;> simp [stepStrategy, h1, h2]

/-- The strategy loop never returns `PRESERVED`. -/
theorem relocateLoop_never_preserved (env : RelocateEnv) (minc : ℚ) :
    ∀ (strats : List RelocationStrategy) (tried : List StrategyAttempt),
      (relocateLoop env minc strats tried).status ≠ RelocationStatus.PRESERVED := by
  intro strats
  induction strats with
  | nil => intro tried; simp [relocateLoop]
  | cons s rest ih =>
      intro tried
      simp only [relocateLoop]
      split
      · exact stepStrategy_never_preserved env minc s
      · exact ih _

/-- When the confidence bar is positive, the strategy loop either falls
through to the `STALE`/`CONTENT_CHANGED`/`0` fallback or halts at a
`RELOCATED` candidate produced by `LINE_DRIFT` or
`SEMANTIC_SAME_FILE`. -/
theorem relocateLoop_dichotomy (env : RelocateEnv) (minc : ℚ) (h : 0 < minc) :
    ∀ (strats : List RelocationStrategy) (tried : List StrategyAttempt),
      ((relocateLoop env minc strats tried).status = RelocationStatus.STALE
        ∧ (relocateLoop env minc strats tried).method = RelocationMethod.CONTENT_CHANGED
        ∧ (relocateLoop env minc strats tried).confidence = 0)
      ∨ ((relocateLoop env minc strats tried).status = RelocationStatus.RELOCATED
        ∧ ((relocateLoop env minc strats tried).method = RelocationMethod.LINE_DRIFT
            ∨ (relocateLoop env minc strats tried).method
                = RelocationMethod.SEMANTIC_SAME_FILE)) := by
  intro strats
  induction strats with
  | nil => intro tried; left; simp [relocateLoop]
  | cons s rest ih =>
      intro tried
      simp only [relocateLoop]
      split
      · rename_i hge
        rcases stepStrategy_cases env minc s with hzero | hrel
        · exact absurd (hzero ▸ hge) (not_le.mpr h)
        · right; exact hrel
      · exact ih _

/-- With no delta manifest and no vector services and a positive
confidence bar, the loop always falls through to the fallback. -/
theorem relocateLoop_noServices (env : RelocateEnv)
    (h1 : env.hasDeltaManifest = false) (h2 : env.semanticSearch = none)
    (minc : ℚ) (h : 0 < minc) :
    ∀ (strats : List RelocationStrategy) (tried : List StrategyAttempt),
      ((relocateLoop env minc strats tried).status = RelocationStatus.STALE
        ∧ (relocateLoop env minc strats tried).method = RelocationMethod.CONTENT_CHANGED
        ∧ (relocateLoop env minc strats tried).confidence = 0) := by
  intro strats
  induction strats with
  | nil => intro tried; simp [relocateLoop]
  | cons s rest ih =>
      intro tried
      simp only [relocateLoop]
      split
      · rename_i hge
        rw [stepStrategy_noServices_conf env h1 h2 minc s] at hge
        exact absurd hge (not_le.mpr h)
      · exact ih _

-- ===========================================================================
-- C3 — EXACT is a stub: the pipeline can never return PRESERVED
-- ===========================================================================

/-- C3 (code bug): the pipeline never returns `PRESERVED` for any input
whatsoever — the EXACT strategy is hardcoded to record `NO_MATCH` with
confidence `0` and never inspects content — and, concretely, a call
restricted to the EXACT strategy with the default threshold `0.7`
returns `STALE`/`CONTENT_CHANGED`/`0` regardless of whether the finding
content is unchanged at its original location (the handler takes no
content input at all). -/
theorem relocate_exact_stub_never_preserved :
    (∀ (env : RelocateEnv) (strategies : Option (List RelocationStrategy))
        (minc : Option ℚ),
      (findingRelocate env strategies minc).status ≠ RelocationStatus.PRESERVED)
    ∧ findingRelocate ⟨false, none, "proj", "f1"⟩ (some [.EXACT]) none
        = { status := .STALE, new_location := none, method := .CONTENT_CHANGED,
            confidence := 0, drift := none,
            strategies_tried := [⟨.EXACT, "NO_MATCH", 0⟩] } := by
  constructor
  · intro env strategies minc
    exact relocateLoop_never_preserved env _ _ []
  · norm_num [findingRelocate, relocateLoop, stepStrategy]

-- ===========================================================================
-- C10 — stubbed strategies and the no-services outcome
-- ===========================================================================

/-- C10 (counterexample): with `min_confidence = 0`, no delta manifest
and no vector services, the EXACT strategy qualifies immediately
(`0 ≥ 0`) and the pipeline returns its iteration-default status
`ORPHANED`, not `STALE` — refuting the claim's "always returns status
STALE" for such inputs. -/
theorem relocate_min_conf_zero_orphaned :
    (findingRelocate ⟨false, none, "proj", "f0"⟩ (some [.EXACT]) (some 0)).status
        = RelocationStatus.ORPHANED
    ∧ (findingRelocate ⟨false, none, "proj", "f0"⟩ (some [.EXACT]) (some 0)).status
        ≠ RelocationStatus.STALE := by
  have hst : (findingRelocate ⟨false, none, "proj", "f0"⟩ (some [.EXACT]) (some 0)).status
      = RelocationStatus.ORPHANED := by
    norm_num [findingRelocate, relocateLoop, stepStrategy]
  exact ⟨hst, by rw [hst]; decide⟩

/-- C10 (amended): for a positive confidence bar, EXACT, HASH_GLOBAL and
FUZZY always record `NO_MATCH` with confidence `0`; any result other
than the `STALE`/`CONTENT_CHANGED` fallback is a `RELOCATED` candidate
from DRIFT (`LINE_DRIFT`) or SEMANTIC (`SEMANTIC_SAME_FILE`); and a
call with no delta manifest and no vector services returns status
`STALE`, method `CONTENT_CHANGED`, confidence `0`. -/
theorem relocate_stub_strategies (project finding : String) (minc : ℚ)
    (strats : List RelocationStrategy) (h : 0 < minc) :
    (∀ env : RelocateEnv,
        stepStrategy env minc .EXACT
          = (0, .ORPHANED, .CONTENT_CHANGED, [⟨.EXACT, "NO_MATCH", 0⟩])
        ∧ stepStrategy env minc .HASH_GLOBAL
          = (0, .ORPHANED, .CONTENT_CHANGED, [⟨.HASH_GLOBAL, "NO_MATCH", 0⟩])
        ∧ stepStrategy env minc .FUZZY
          = (0, .ORPHANED, .CONTENT_CHANGED, [⟨.FUZZY, "NO_MATCH", 0⟩]))
    ∧ (∀ (env : RelocateEnv) (sl : Option (List RelocationStrategy)),
        (findingRelocate env sl (some minc)).status ≠ RelocationStatus.STALE
          → (findingRelocate env sl (some minc)).status = RelocationStatus.RELOCATED
            ∧ ((findingRelocate env sl (some minc)).method = RelocationMethod.LINE_DRIFT
              ∨ (findingRelocate env sl (some minc)).method
                  = RelocationMethod.SEMANTIC_SAME_FILE))
    ∧ ((findingRelocate ⟨false, none, project, finding⟩ (some strats) (some minc)).status
          = RelocationStatus.STALE
        ∧ (findingRelocate ⟨false, none, project, finding⟩ (some strats) (some minc)).method
            = RelocationMethod.CONTENT_CHANGED
        ∧ (findingRelocate ⟨false, none, project, finding⟩ (some strats)
            (some minc)).confidence = 0) := by
  refine ⟨fun env => ⟨rfl, rfl, rfl⟩, ?_, ?_⟩
  · intro env sl hne
    rcases relocateLoop_dichotomy env minc h (sl.getD [.EXACT, .DRIFT, .SEMANTIC, .HASH_GLOBAL, .FUZZY]) [] with hfall | hrel
    · exact absurd hfall.1 hne
    · exact hrel
  · exact relocateLoop_noServices ⟨false, none, project, finding⟩ rfl rfl minc h strats []

/-- Witness for C10 (amended) at the default strategy list and
threshold. -/
theorem relocate_stub_strategies_witness :
    (0 : ℚ) < 0.7
    ∧ ((findingRelocate ⟨false, none, "proj", "f2"⟩
          (some [.EXACT, .DRIFT, .SEMANTIC, .HASH_GLOBAL, .FUZZY]) (some 0.7)).status
        = RelocationStatus.STALE
      ∧ (findingRelocate ⟨false, none, "proj", "f2"⟩
          (some [.EXACT, .DRIFT, .SEMANTIC, .HASH_GLOBAL, .FUZZY]) (some 0.7)).method
        = RelocationMethod.CONTENT_CHANGED
      ∧ (findingRelocate ⟨false, none, "proj", "f2"⟩
          (some [.EXACT, .DRIFT, .SEMANTIC, .HASH_GLOBAL, .FUZZY])
          (some 0.7)).confidence = 0) :=
  ⟨by norm_num,
    (relocate_stub_strategies "proj" "f2" 0.7 [.EXACT, .DRIFT, .SEMANTIC, .HASH_GLOBAL, .FUZZY]
      (by norm_num)).2.2⟩

-- ===========================================================================
-- C4 — cascade propagation ignores weight, type and depth filters
-- ===========================================================================

/-- Store response for the C4 scenario: a single IMPORTS edge A→B with
weight 1 (below the threshold 2), indexed for the dirty chunk A. -/
def c4SearchLowWeight : String → List GraphSearchRecord := fun chunkId =>
  if chunkId == "A" then
    [{ memoryType := "graph", recordType := "edge", project_path := "proj",
       source := "A", target := "B", edge_type := "IMPORTS",
       weight := some 1, confidence := none }]
  else []

/-- Store response with the same edge at weight 3 (above threshold). -/
def c4SearchHighWeight : String → List GraphSearchRecord := fun chunkId =>
  if chunkId == "A" then
    [{ memoryType := "graph", recordType := "edge", project_path := "proj",
       source := "A", target := "B", edge_type := "IMPORTS",
       weight := some 3, confidence := none }]
  else []

/-- C4 (code bug): the propagation handler ignores `min_edge_weight` and
`max_depth` — with a weight-1 IMPORTS edge A→B, `min_edge_weight = 2`
and `max_depth = 3` it still cascades to B, and with a weight-3 edge and
`max_depth = 0` it also cascades to B; the claim requires
`cascade_affected = ∅` in both cases. -/
theorem propagate_ignores_weight_and_depth :
    (graphPropagate (some c4SearchLowWeight)
        { project_path := "proj", dirty_chunks := ["A"], max_depth := some 3,
          edge_types := none, min_edge_weight := some 2,
          enable_semantic_ripple := none, similarity_threshold := none }).cascade_affected
      = ["B"]
    ∧ (graphPropagate (some c4SearchHighWeight)
        { project_path := "proj", dirty_chunks := ["A"], max_depth := some 0,
          edge_types := none, min_edge_weight := some 2,
          enable_semantic_ripple := none, similarity_threshold := none }).cascade_affected
      = ["B"]
    ∧ (["B"] : List String) ≠ [] := by
  refine ⟨rfl, rfl, by decide⟩

-- ===========================================================================
-- C5 — the semantic-ripple pass does not exist
-- ===========================================================================

/-- Store response for the C5 scenario: a SIMILAR_TO edge A→B with
confidence 0.9, above the similarity threshold 0.8. -/
def c5SearchSimilar : String → List GraphSearchRecord := fun chunkId =>
  if chunkId == "A" then
    [{ memoryType := "graph", recordType := "edge", project_path := "proj",
       source := "A", target := "B", edge_type := "SIMILAR_TO",
       weight := none, confidence := some 0.9 }]
  else []

/-- C5 (code bug): `semantic_affected` is the empty set for every input
— there is no second pass over SIMILAR_TO edges — and in the concrete
scenario with a qualifying SIMILAR_TO edge from a dirty chunk
(`enable_semantic_ripple = true`, threshold 0.8, confidence 0.9) the
result's `semantic_affected` is empty while B instead lands in
`cascade_affected` through the type-blind cascade loop. -/
theorem propagate_semantic_always_empty :
    (∀ (searchFn : Option (String → List GraphSearchRecord))
        (args : GraphPropagateArgs),
      (graphPropagate searchFn args).semantic_affected = [])
    ∧ (graphPropagate (some c5SearchSimilar)
        { project_path := "proj", dirty_chunks := ["A"], max_depth := none,
          edge_types := none, min_edge_weight := none,
          enable_semantic_ripple := some true,
          similarity_threshold := some 0.8 }).semantic_affected = []
    ∧ (graphPropagate (some c5SearchSimilar)
        { project_path := "proj", dirty_chunks := ["A"], max_depth := none,
          edge_types := none, min_edge_weight := none,
          enable_semantic_ripple := some true,
          similarity_threshold := some 0.8 }).cascade_affected = ["B"] := by
  exact ⟨fun searchFn args => rfl, rfl, rfl⟩

-- ===========================================================================
-- C6 — graph upsert is not idempotent
-- ===========================================================================

/-- The edge used for the C6 counterexample. -/
def c6Edge : GraphEdge :=
  { source := "A", target := "B", edge_type := "IMPORTS", weight := some 2,
    symbols := none, confidence := none, primary := none }

/-- C6 (code bug): re-adding the identical edge tuple does not overwrite
— each `add_edge` stores a new record under a fresh time/random numeric
vector id (here 1001 and then 1002), so after two applications the store
holds two records for the tuple `(A, B, IMPORTS)` where one application
leaves one, and the two states differ. -/
theorem graph_add_edge_not_idempotent :
    countEdgeRecords (graphAddEdge [] "proj" "c1" c6Edge 1001) "A" "B" "IMPORTS" = 1
    ∧ countEdgeRecords
        (graphAddEdge (graphAddEdge [] "proj" "c1" c6Edge 1001) "proj" "c1" c6Edge 1002)
        "A" "B" "IMPORTS" = 2
    ∧ graphAddEdge (graphAddEdge [] "proj" "c1" c6Edge 1001) "proj" "c1" c6Edge 1002
        ≠ graphAddEdge [] "proj" "c1" c6Edge 1001 := by
  refine ⟨rfl, rfl, fun hcontra => absurd (congrArg List.length hcontra) (by decide)⟩

-- ===========================================================================
-- C7 — provenance chains drop all ancestors but the direct baseline
-- ===========================================================================

/-- A baseline snapshot whose provenance chain already has two entries. -/
def c7Baseline : Snapshot :=
  { snapshot_id := "s2", project_path := "proj", git_commit := "c0",
    git_branch := "main", workflow_id := "w0", workflow_goal := .AUDIT,
    analysis_mode := .FULL, baseline_snapshot_id := some "s1",
    chunk_manifest := [], findings := [], trust_score := ⟨10, .HIGH, ⟨1, 1, 1⟩⟩,
    duration_seconds := 0, created_at := "t0", provenance_chain := ["s1", "s2"] }

def c7CreateArgs : SnapshotCreateParams :=
  { project_path := "proj", git_commit := "c1", git_branch := "main",
    workflow_id := "w1", workflow_goal := .AUDIT, analysis_mode := .INCREMENTAL,
    baseline_snapshot_id := some "s2", chunk_manifest := [], findings := [],
    trust_score := ⟨10, .HIGH, ⟨1, 1, 1⟩⟩, duration_seconds := none }

def c7MergeArgs : SnapshotMergeArgs :=
  { baseline_snapshot_id := "s2", delta_envelope_ids := [],
    relocation_results := [], target_commit := "c2", project_path := "proj",
    conflict_strategy := none, workflow_id := "w2", workflow_goal := .AUDIT }

/-- C7 (code bug): creating or merging onto the baseline `s2` (whose own
chain is `[s1, s2]`) produces the chain `[s2, <new id>]` — the ancestor
`s1` is dropped, so the new chain is not the baseline's entire chain
with the new id appended. -/
theorem provenance_chain_drops_ancestors :
    c7Baseline.snapshot_id = "s2"
    ∧ c7Baseline.provenance_chain = ["s1", "s2"]
    ∧ (snapshotCreate c7CreateArgs "d1" "t1").provenance_chain = ["s2", "snap-d1-c1"]
    ∧ (snapshotCreate c7CreateArgs "d1" "t1").provenance_chain
        ≠ c7Baseline.provenance_chain
            ++ [(snapshotCreate c7CreateArgs "d1" "t1").snapshot_id]
    ∧ (snapshotMerge c7MergeArgs "d2" "t2").1.provenance_chain = ["s2", "snap-d2-c2"]
    ∧ (snapshotMerge c7MergeArgs "d2" "t2").1.provenance_chain
        ≠ c7Baseline.provenance_chain
            ++ [(snapshotMerge c7MergeArgs "d2" "t2").1.snapshot_id] := by
  refine ⟨rfl, rfl, rfl, by decide, rfl, by decide⟩

-- ===========================================================================
-- C8 — conflicts_resolved is hardcoded to zero
-- ===========================================================================

/-- Merge input with `KEEP_BOTH` and one colliding relocated/new pair:
`f1` was relocated to `src/a.ts` lines 10–20, and the delta envelope
`e1` holds a new finding overlapping the same file/lines (the handler
never reads locations, so the collision is invisible to it). -/
def c8MergeArgs : SnapshotMergeArgs :=
  { baseline_snapshot_id := "s0"
    delta_envelope_ids := ["e1"]
    relocation_results :=
      [("f1", { status := .RELOCATED, new_location := some ⟨"src/a.ts", 10, 20⟩,
                method := .LINE_DRIFT, confidence := 0.95, drift := some 2,
                strategies_tried := [] })]
    target_commit := "c3", project_path := "proj",
    conflict_strategy := some .KEEP_BOTH, workflow_id := "w3",
    workflow_goal := .AUDIT }

/-- C8 (code bug): `conflicts_resolved` is `0` for every merge input —
the handler hardcodes it ("Would be computed during actual merge") and
never reads `conflict_strategy` or any finding location — so the
KEEP_BOTH scenario with one colliding pair reports `0`, not `1`; both
findings are nevertheless present in the output finding set. -/
theorem merge_conflicts_resolved_always_zero :
    (∀ (args : SnapshotMergeArgs) (dateStr timestamp : String),
      (snapshotMerge args dateStr timestamp).2.conflicts_resolved = 0)
    ∧ (snapshotMerge c8MergeArgs "d3" "t3").2.conflicts_resolved = 0
    ∧ (snapshotMerge c8MergeArgs "d3" "t3").1.findings = ["f1", "e1"] := by
  exact ⟨fun args dateStr timestamp => rfl, rfl, rfl⟩

-- ===========================================================================
-- C9 — branch create performs no duplicate check
-- ===========================================================================

/-- A store already holding an active analysis branch for git branch
`feature-x` in project `proj`. -/
def c9ExistingStore : List (ℕ × BranchRecord) :=
  [(7, { branch := { branch_id := "ab-feature-x-old1", git_branch := "feature-x",
                     base_git_branch := "main", fork_point_commit := "",
                     snapshots := [], created_at := "t0", updated_at := "t0" },
         project_path := "proj" })]

/-- C9 (counterexample): creating a branch for `feature-x` while an
active branch with the same git branch name already exists for the
project succeeds (no `Conflict` error) and leaves two branch records
with that git branch name in the store. -/
theorem branch_create_no_conflict_check :
    (branchCreate c9ExistingStore "proj" (some "feature-x") none "sfx1" 9 "t1").1
      = BranchCreateOutcome.ok
          { branch_id := "ab-feature-x-sfx1", git_branch := "feature-x",
            base_git_branch := "main", fork_point_commit := "", snapshots := [],
            created_at := "t1", updated_at := "t1" }
    ∧ ((branchCreate c9ExistingStore "proj" (some "feature-x") none "sfx1" 9 "t1").2.filter
        (fun rec => rec.2.branch.git_branch == "feature-x"
          && rec.2.project_path == "proj")).length = 2 := by
  refine ⟨by decide, by decide⟩

/-- C9 (amended): branch create never checks for an existing branch:
whenever `git_branch` is present it succeeds and appends a new branch
record (with a synthesized id, `main` as default base, empty fork point
and no snapshots) to the store — regardless of what the store already
contains — and it fails only when `git_branch` is missing. -/
theorem branch_create_always_inserts (store : List (ℕ × BranchRecord))
    (project gb : String) (base : Option String) (suffix : String) (vid : ℕ)
    (ts : String) (hfresh : ∀ rec ∈ store, rec.1 ≠ vid) :
    branchCreate store project (some gb) base suffix vid ts
      = (.ok { branch_id := generateBranchId gb suffix, git_branch := gb,
               base_git_branch := base.getD "main", fork_point_commit := "",
               snapshots := [], created_at := ts, updated_at := ts },
         store ++ [(vid,
           { branch := { branch_id := generateBranchId gb suffix, git_branch := gb,
                         base_git_branch := base.getD "main", fork_point_commit := "",
                         snapshots := [], created_at := ts, updated_at := ts },
             project_path := project })])
    ∧ (∀ (st : List (ℕ × BranchRecord)) (proj : String) (b : Option String)
          (sfx : String) (v : ℕ) (t : String),
        branchCreate st proj none b sfx v t
          = (.err "git_branch required for create operation", st)) := by
  constructor
  · have hany : store.any (fun r => r.1 == vid) = false := by
      rw [List.any_eq_false]
      intro x hx
      simpa using hfresh x hx
    simp [branchCreate, vsInsert, hany]
  · intro st proj b sfx v t
    rfl

/-- Witness for C9 (amended): applied to the store that already holds a
`feature-x` branch, with the fresh vector id 9. -/
theorem branch_create_always_inserts_witness :
    (∀ rec ∈ c9ExistingStore, rec.1 ≠ 9)
    ∧ (branchCreate c9ExistingStore "proj" (some "feature-x") none "sfx2" 9 "t2").1
        = .ok { branch_id := generateBranchId "feature-x" "sfx2",
                git_branch := "feature-x", base_git_branch := "main",
                fork_point_commit := "", snapshots := [],
                created_at := "t2", updated_at := "t2" } :=
  ⟨by decide,
    congrArg Prod.fst
      ((branch_create_always_inserts c9ExistingStore "proj" "feature-x" none "sfx2" 9 "t2"
        (by decide)).1)⟩

end Cipher

